import Mathlib

/-!
Verification of the process-lifecycle supervisor in
`launch_viewer_webview.py` (Trace Timeline Viewer Launcher).

The Python source is shallowly embedded: the filesystem is an explicit map
from paths to file contents plus a set of directories; OS facts the program
queries (process liveness, port availability, readiness of the freshly
started server, success of process spawning) are oracles packaged in
environment records; each operation returns its result, the new filesystem,
and a trace of the observable actions it performed.
-/

namespace Viewer

/-- Filesystem state: regular files as a map from path to content, and a set
of directories.  The lock marker lives in `files`; ephemeral profile
directories live in `dirs`. -/
structure FS where
  files : String → Option String
  dirs : String → Bool

/-- `open(p, "w"); f.write(content)` — create or overwrite a file. -/
def FS.write (fs : FS) (p : String) (content : String) : FS :=
  ⟨fun q => if q = p then some content else fs.files q, fs.dirs⟩

/-- `os.remove(p)` — drop a file entry (no-op on the map if absent). -/
def FS.remove (fs : FS) (p : String) : FS :=
  ⟨fun q => if q = p then none else fs.files q, fs.dirs⟩

/-- `tempfile.mkdtemp` effect — register a directory. -/
def FS.mkdir (fs : FS) (d : String) : FS :=
  ⟨fs.files, fun q => if q = d then true else fs.dirs q⟩

/-- `shutil.rmtree(d)` — drop a directory. -/
def FS.rmtree (fs : FS) (d : String) : FS :=
  ⟨fs.files, fun q => if q = d then false else fs.dirs q⟩

/-- The empty filesystem. -/
def emptyFS : FS := ⟨fun _ => none, fun _ => false⟩

/-- Decimal digits to a number; `none` on the empty list or a non-digit. -/
def decDigits? (cs : List Char) : Option Nat :=
  match cs with
  | [] => none
  | _ =>
    cs.foldl
      (fun acc c =>
        match acc with
        | none => none
        | some n => if c.isDigit then some (n * 10 + (c.toNat - 48)) else none)
      (some 0)

/-- Python `str.strip()` on a character list: drop whitespace from both
ends. -/
def pyStrip (cs : List Char) : List Char :=
  ((cs.dropWhile Char.isWhitespace).reverse.dropWhile Char.isWhitespace).reverse

/-- Python `str.strip()`. -/
def pyStripStr (s : String) : String := ⟨pyStrip s.data⟩

/-- Models Python `int(s)` on a string: strip surrounding whitespace, then an
optional sign followed by decimal digits; `none` where `int` raises
`ValueError`.  (Underscore digit grouping and non-ASCII digits, which
CPython also accepts, are not modelled; no lock content in the claims uses
them.) -/
def pyInt? (s : String) : Option Int :=
  match pyStrip s.data with
  | '-' :: rest => (decDigits? rest).map (fun n => -(n : Int))
  | '+' :: rest => (decDigits? rest).map (fun n => (n : Int))
  | cs => (decDigits? cs).map (fun n => (n : Int))

/-- Observable actions of the launcher, in execution order. -/
inductive Ev where
  | lockRemovedCorrupt
  | lockCheckedLiveness (pid : Int)
  | lockRemovedStale (pid : Int)
  | lockWroteOwnPid
  | lockRefused (pid : Int)
  | lockReleased (path : String)
  | serverCreated (port : Nat)
  | startPortError (msg : String)
  | startTimeoutError (port : Nat)
  | startInterrupted (port : Nat)
  | printedUrl (url : String)
  | openedDefault (url : String)
  | defaultOpenError
  | createdProfile (dir : String)
  | spawned (exe : String) (pid : Nat)
  | spawnError (exe : String)
  | waitedForBrowser
  | terminatedBrowser
  | browserExited
  | fallbackPolled
  | healthLost
  | pollTimedOut
  | pollShutdown
  | unexpectedError (msg : String)
  | serverStopped (port : Nat)
  | profileCleanup (dir : Option String)
  | profileRemoved (dir : String)
  deriving DecidableEq

/-- Result of `acquire_lock`: the returned boolean, the filesystem after the
call, and the trace of actions taken. -/
structure AcquireResult where
  ok : Bool
  fs : FS
  events : List Ev

/-- Embeds `acquire_lock(lock_path)` (source lines 255–288).

If the marker exists its content is read, stripped and parsed with `int`.
A parse failure is the corrupt case: the file is removed and `old_pid` is
`None`.  The Python guard `if old_pid:` is *truthiness*, so both `None` and
a parsed value of `0` skip the liveness check and the stale-marker removal.
A live nonzero pid aborts with the marker untouched; a dead nonzero pid has
its stale marker removed.  Finally the caller's own pid is written in
decimal text and the call succeeds.  Filesystem writes and removes are
modelled as succeeding. -/
def acquire_lock (ownPid : Nat) (pidAlive : Int → Bool) (fs : FS)
    (lock_path : String) : AcquireResult :=
  match fs.files lock_path with
  | none =>
      ⟨true, fs.write lock_path (toString ownPid), [.lockWroteOwnPid]⟩
  | some raw =>
      match pyInt? (pyStripStr raw) with
      | none =>
          ⟨true, (fs.remove lock_path).write lock_path (toString ownPid),
            [.lockRemovedCorrupt, .lockWroteOwnPid]⟩
      | some old_pid =>
          if old_pid = 0 then
            ⟨true, fs.write lock_path (toString ownPid), [.lockWroteOwnPid]⟩
          else if pidAlive old_pid then
            ⟨false, fs, [.lockCheckedLiveness old_pid, .lockRefused old_pid]⟩
          else
            ⟨true, ((fs.remove lock_path).write lock_path (toString ownPid)),
              [.lockCheckedLiveness old_pid, .lockRemovedStale old_pid,
               .lockWroteOwnPid]⟩

/-- Embeds `release_lock(lock_path)` (source lines 291–296): remove the
marker if present; a missing marker is not an error. -/
def release_lock (fs : FS) (lock_path : String) : FS :=
  match fs.files lock_path with
  | some _ => fs.remove lock_path
  | none => fs

/-- A liveness oracle reporting every pid dead. -/
def alwaysDead : Int → Bool := fun _ => false

/-- A liveness oracle reporting every pid (including 0) live. -/
def alwaysAlive : Int → Bool := fun _ => true

/-- A filesystem whose lock marker contains the text `0`. -/
def fsMarkerZero : FS := emptyFS.write "viewer.lock" "0"

/-- A filesystem whose lock marker contains the text `31337`. -/
def fsMarkerPid : FS := emptyFS.write "viewer.lock" "31337"

/-- C4 (amended): for a marker parsing as a *nonzero* pid that the platform
liveness check reports live, `acquire_lock` fails and leaves the whole
filesystem — in particular the marker — byte-for-byte unchanged. -/
theorem acquire_lock_live_nonzero_pid_fails
    (ownPid : Nat) (pidAlive : Int → Bool) (fs : FS) (lp raw : String)
    (pid : Int) (hread : fs.files lp = some raw)
    (hparse : pyInt? (pyStripStr raw) = some pid) (hnz : pid ≠ 0)
    (halive : pidAlive pid = true) :
    (acquire_lock ownPid pidAlive fs lp).ok = false ∧
    (acquire_lock ownPid pidAlive fs lp).fs = fs := by
  simp only [acquire_lock, hread, hparse]
  simp [hnz, halive]

/-- C4 witness: a concrete marker naming live pid 31337 is refused and the
marker text is unchanged. -/
theorem acquire_lock_live_nonzero_pid_fails_witness :
    (fsMarkerPid.files "viewer.lock" = some "31337" ∧
      pyInt? (pyStripStr "31337") = some 31337 ∧
      (31337 : Int) ≠ 0 ∧ alwaysAlive 31337 = true) ∧
    ((acquire_lock 4242 alwaysAlive fsMarkerPid "viewer.lock").ok = false ∧
      (acquire_lock 4242 alwaysAlive fsMarkerPid "viewer.lock").fs =
        fsMarkerPid) :=
  ⟨⟨by decide, by decide, by decide, by decide⟩,
    acquire_lock_live_nonzero_pid_fails 4242 alwaysAlive fsMarkerPid
      "viewer.lock" "31337" 31337 (by decide) (by decide) (by decide)
      (by decide)⟩

/-- C4 counterexample: the claim quantifies over every marker that parses as
a pid the liveness check reports live.  The marker `0` parses as pid 0, and
with a liveness oracle that reports pid 0 live (as `os.kill(0, 0)` does on
POSIX, where it probes the caller's own process group), `acquire_lock`
nevertheless succeeds and rewrites the marker: the truthiness guard
`if old_pid:` never consults the liveness check for 0. -/
theorem acquire_lock_live_pid_zero_succeeds_cex :
    pyInt? (pyStripStr "0") = some 0 ∧
    alwaysAlive 0 = true ∧
    (acquire_lock 4242 alwaysAlive fsMarkerZero "viewer.lock").ok = true ∧
    (acquire_lock 4242 alwaysAlive fsMarkerZero "viewer.lock").fs.files
        "viewer.lock" = some "4242" := by
  refine ⟨by decide, by decide, by decide, by decide⟩

/-- C5: whenever the marker is absent, or present and parsing as a pid the
liveness oracle reports dead, `acquire_lock` succeeds and afterwards the
marker contains the caller's own pid in decimal text. -/
theorem acquire_lock_absent_or_dead_succeeds
    (ownPid : Nat) (pidAlive : Int → Bool) (fs : FS) (lp : String)
    (h : fs.files lp = none ∨
      ∃ raw pid, fs.files lp = some raw ∧ pyInt? (pyStripStr raw) = some pid ∧
        pidAlive pid = false) :
    (acquire_lock ownPid pidAlive fs lp).ok = true ∧
    (acquire_lock ownPid pidAlive fs lp).fs.files lp =
      some (toString ownPid) := by
  rcases h with habs | ⟨raw, pid, hread, hparse, hdead⟩
  · simp only [acquire_lock, habs]
    simp [FS.write]
  · simp only [acquire_lock, hread, hparse]
    by_cases hz : pid = 0
    · simp [hz, FS.write]
    · simp [hz, hdead, FS.write, FS.remove]

/-- C5 witness: acquiring with no marker present succeeds and writes the
caller's pid `4242` as decimal text. -/
theorem acquire_lock_absent_or_dead_succeeds_witness :
    (emptyFS.files "viewer.lock" = none ∨
      ∃ raw pid, emptyFS.files "viewer.lock" = some raw ∧
        pyInt? (pyStripStr raw) = some pid ∧ alwaysDead pid = false) ∧
    ((acquire_lock 4242 alwaysDead emptyFS "viewer.lock").ok = true ∧
      (acquire_lock 4242 alwaysDead emptyFS "viewer.lock").fs.files
        "viewer.lock" = some "4242") :=
  ⟨Or.inl (by decide),
    acquire_lock_absent_or_dead_succeeds 4242 alwaysDead emptyFS "viewer.lock"
      (Or.inl (by decide))⟩

/-- C10: a marker parsing as the integer 0 is handled by the falsy branch of
`if old_pid:`: no liveness check and no marker removal appear in the trace,
the marker is simply overwritten with the caller's own pid, and the call
succeeds — for every liveness oracle, hence regardless of whether pid 0
would be reported live. -/
theorem acquire_lock_pid_zero_skips_liveness
    (ownPid : Nat) (pidAlive : Int → Bool) (fs : FS) (lp raw : String)
    (hread : fs.files lp = some raw) (hparse : pyInt? (pyStripStr raw) = some 0) :
    (acquire_lock ownPid pidAlive fs lp).ok = true ∧
    (acquire_lock ownPid pidAlive fs lp).fs =
      fs.write lp (toString ownPid) ∧
    (acquire_lock ownPid pidAlive fs lp).events = [Ev.lockWroteOwnPid] := by
  simp only [acquire_lock, hread, hparse]
  simp

/-- C10 witness: the concrete marker `0`, under an oracle reporting pid 0
live, is overwritten with the caller's pid `4242` with a trace containing
neither a liveness check nor a removal. -/
theorem acquire_lock_pid_zero_skips_liveness_witness :
    (fsMarkerZero.files "viewer.lock" = some "0" ∧
      pyInt? (pyStripStr "0") = some 0) ∧
    ((acquire_lock 4242 alwaysAlive fsMarkerZero "viewer.lock").ok = true ∧
      (acquire_lock 4242 alwaysAlive fsMarkerZero "viewer.lock").fs =
        fsMarkerZero.write "viewer.lock" (toString 4242) ∧
      (acquire_lock 4242 alwaysAlive fsMarkerZero "viewer.lock").events =
        [Ev.lockWroteOwnPid]) :=
  ⟨⟨by decide, by decide⟩,
    acquire_lock_pid_zero_skips_liveness 4242 alwaysAlive fsMarkerZero
      "viewer.lock" "0" (by decide) (by decide)⟩

-- ---- Constants (source lines 52–59) --------------------------------------

/-- `HOST = "127.0.0.1"`. -/
def HOST : String := "127.0.0.1"

/-- `DEFAULT_PORT = 8080`. -/
def DEFAULT_PORT : Nat := 8080

/-- `PORT_SEARCH_RANGE = 200`. -/
def PORT_SEARCH_RANGE : Nat := 200

/-- `PROFILE_CLEANUP_RETRIES = 3`. -/
def PROFILE_CLEANUP_RETRIES : Nat := 3

-- ---- Port allocation (source lines 70–79 and 132–140) ---------------------

/-- Embeds `find_free_port(start_port, max_attempts)` (source lines 70–79):
scan `start_port .. start_port + max_attempts - 1` in order, return the
first port the bind probe accepts, else raise.  Whether a concrete bind
succeeds is the oracle `free`. -/
def find_free_port (free : Nat → Bool) (start_port : Nat)
    (max_attempts : Nat) : Except String Nat :=
  match (List.range max_attempts).find? (fun i => free (start_port + i)) with
  | some i => .ok (start_port + i)
  | none =>
      .error ("No free port found in range " ++ toString start_port ++ "-" ++
        toString (start_port + max_attempts - 1))

/-- Embeds the port-determination step of `start_server` (source lines
133–140).  The guard is Python truthiness `if preferred_port:`, which is
false both for `None` and for `0`: a preferred port of 0 therefore falls
through to the scan from `DEFAULT_PORT`.  A nonzero preferred port is tried
with a single-attempt scan, any failure being converted to the
port-unavailable error. -/
def allocate_port (free : Nat → Bool) (preferred_port : Option Nat) :
    Except String Nat :=
  match preferred_port with
  | some p =>
      if p = 0 then find_free_port free DEFAULT_PORT PORT_SEARCH_RANGE
      else
        match find_free_port free p 1 with
        | .ok q => .ok q
        | .error _ =>
            .error ("Preferred port " ++ toString p ++ " unavailable")
  | none => find_free_port free DEFAULT_PORT PORT_SEARCH_RANGE

/-- A port oracle under which every bind succeeds. -/
def allFree : Nat → Bool := fun _ => true

/-- A port oracle under which every bind fails. -/
def noneFree : Nat → Bool := fun _ => false

/-- A single-attempt scan at `p` returns `p` iff the bind probe accepts
`p`. -/
theorem find_free_port_one (free : Nat → Bool) (p : Nat) :
    find_free_port free p 1 =
      if free p then Except.ok p else Except.error
        ("No free port found in range " ++ toString p ++ "-" ++ toString p) := by
  have hr : List.range 1 = [0] := rfl
  unfold find_free_port
  rw [hr]
  simp only [List.find?, Nat.add_zero]
  cases hf : free p <;> simp [hf]

/-- C6 (amended): for every *nonzero* preferred port `P`, allocation tries
exactly `P`: it returns `P` when the bind probe accepts `P` and otherwise
fails with the port-unavailable error — never a different port. -/
theorem allocate_port_preferred_nonzero (free : Nat → Bool) (P : Nat)
    (hnz : P ≠ 0) :
    allocate_port free (some P) =
      if free P then Except.ok P
      else Except.error ("Preferred port " ++ toString P ++ " unavailable") := by
  simp only [allocate_port, if_neg hnz, find_free_port_one]
  cases hf : free P <;> simp [hf]

/-- C6 witness: preferred port 8080 with the probe accepting it is allocated
as exactly 8080; with the probe rejecting everything, allocation fails with
the port-unavailable error. -/
theorem allocate_port_preferred_nonzero_witness :
    ((8080 : Nat) ≠ 0 ∧
      allocate_port allFree (some 8080) =
        (if allFree 8080 then Except.ok 8080
         else Except.error ("Preferred port " ++ toString (8080 : Nat) ++
           " unavailable"))) ∧
    ((8080 : Nat) ≠ 0 ∧
      allocate_port noneFree (some 8080) =
        (if noneFree 8080 then Except.ok 8080
         else Except.error ("Preferred port " ++ toString (8080 : Nat) ++
           " unavailable"))) :=
  ⟨⟨by decide, allocate_port_preferred_nonzero allFree 8080 (by decide)⟩,
    ⟨by decide, allocate_port_preferred_nonzero noneFree 8080 (by decide)⟩⟩

/-- C6 counterexample: the claim as stated covers *every* preferred port
supplied by the caller, but `--port 0` (a caller-supplied preferred port,
accepted by argparse) is falsy in `if preferred_port:`, so allocation never
attempts to bind 0: with every port free it silently returns the scanned
port 8080 instead of 0. -/
theorem allocate_port_preferred_zero_scans_cex :
    allocate_port allFree (some 0) = Except.ok 8080 ∧ (8080 : Nat) ≠ 0 := by
  constructor
  · rfl
  · decide

-- ---- Health endpoint (source lines 100–111) --------------------------------

/-- An HTTP response as assembled by the `/health` branch of `do_GET`:
status, the two headers it sends, and the body. -/
structure HttpResponse where
  status : Nat
  contentType : String
  contentLength : Nat
  body : String
  deriving DecidableEq

/-- Outcome of `ViewerRequestHandler.do_GET`: either the response built
directly by the `/health` branch, or delegation to
`SimpleHTTPRequestHandler.do_GET` (static file serving from the handler's
directory). -/
inductive GetOutcome where
  | direct (resp : HttpResponse)
  | delegated (directory : String) (path : String)
  deriving DecidableEq

/-- Models `json.dumps` for a one-field object of plain strings with the
default separators, whose key-value separator is a colon *followed by a
space*. -/
def jsonDumps1 (key val : String) : String :=
  "\x7b\"" ++ key ++ "\": \"" ++ val ++ "\"\x7d"

/-- Embeds `ViewerRequestHandler.do_GET` (source lines 101–111): the exact
path `/health` is answered directly with status 200, `Content-Type:
application/json`, `Content-Length: len(body)` and body
`json.dumps({"status": "ok"})` encoded as UTF-8; every other path is
delegated to the stock static file handler. -/
def do_GET (directory : String) (path : String) : GetOutcome :=
  if path = "/health" then
    let body := jsonDumps1 "status" "ok"
    .direct ⟨200, "application/json", body.utf8ByteSize, body⟩
  else .delegated directory path

/-- The response the `/health` branch actually produces. -/
def health_resp : HttpResponse :=
  ⟨200, "application/json", 16, jsonDumps1 "status" "ok"⟩

/-- C3 (amended): every GET for `/health` gets status 200, `Content-Type:
application/json`, and a body that is exactly the bytes
`{"status": "ok"}` — with a space after the colon, as `json.dumps` emits
with default separators — independent of the content root. -/
theorem do_GET_health (directory : String) :
    do_GET directory "/health" = GetOutcome.direct health_resp ∧
    health_resp.status = 200 ∧
    health_resp.contentType = "application/json" ∧
    health_resp.body = "\x7b\"status\": \"ok\"\x7d" := by
  refine ⟨?_, rfl, rfl, by decide⟩
  show GetOutcome.direct _ = GetOutcome.direct health_resp
  norm_num [jsonDumps1, health_resp]
  decide

/-- C3 counterexample: the claim says the body is exactly the bytes
`{"status":"ok"}`, but `json.dumps({"status": "ok"})` with default
separators puts a space after the colon, so the served body is
`{"status": "ok"}` (16 bytes), not the claimed 15-byte string. -/
theorem do_GET_health_body_not_as_claimed :
    do_GET "viewer" "/health" = GetOutcome.direct health_resp ∧
    health_resp.body = "\x7b\"status\": \"ok\"\x7d" ∧
    health_resp.body ≠ "\x7b\"status\":\"ok\"\x7d" := by
  refine ⟨by decide, by decide, by decide⟩

-- ---- Signal handling (source lines 83–96) ----------------------------------

/-- One observable action of the installed signal handler. -/
inductive HandlerEffect where
  | logLine (msg : String)
  | setShutdownFlag
  deriving DecidableEq

/-- Embeds `signal_handler(signum, frame)` (source lines 83–86): it first
*logs a line to stdout* — an I/O operation, `print(..., flush=True)` — and
then sets the global `_shutdown_requested` flag.  The result is the new
value of the flag together with the ordered list of effects. -/
def signal_handler (signum : Nat) (_shutdown_requested : Bool) :
    Bool × List HandlerEffect :=
  (true,
    [.logLine ("Received signal " ++ toString signum ++
      "; requesting shutdown."),
     .setShutdownFlag])

/-- `signal.SIGINT`. -/
def SIGINT : Nat := 2

/-- `signal.SIGTERM`. -/
def SIGTERM : Nat := 15

/-- `signal.SIGHUP`. -/
def SIGHUP : Nat := 1

/-- Embeds `setup_signal_handlers` (source lines 89–96): the signals for
which `signal_handler` is installed, SIGHUP only where the platform defines
it. -/
def setup_signal_handlers (hasSIGHUP : Bool) : List Nat :=
  [SIGINT, SIGTERM] ++ (if hasSIGHUP then [SIGHUP] else [])

/-- C8 (amended): for every delivered signal the handler sets the shared
shutdown flag to true and performs exactly one further operation, a log
line to stdout (an I/O operation); it does no other resource work. -/
theorem signal_handler_sets_flag_and_logs (signum : Nat)
    (shutdown_requested : Bool) :
    (signal_handler signum shutdown_requested).1 = true ∧
    (signal_handler signum shutdown_requested).2 =
      [HandlerEffect.logLine ("Received signal " ++ toString signum ++
        "; requesting shutdown."),
       HandlerEffect.setShutdownFlag] :=
  ⟨rfl, rfl⟩

/-- C8 counterexample: the claim says the handler performs exactly one
operation (setting the flag) and no I/O, but on SIGINT the handler's effect
trace has two entries and the first is a log line — stdout I/O performed
inside the handler. -/
theorem signal_handler_performs_io_cex :
    (signal_handler SIGINT false).2 =
      [HandlerEffect.logLine "Received signal 2; requesting shutdown.",
       HandlerEffect.setShutdownFlag] ∧
    (signal_handler SIGINT false).2.length ≠ 1 := by
  refine ⟨by decide, by decide⟩

-- ---- Stoppable server (source lines 115–129) -------------------------------

/-- The shared state of `StoppableHTTPServer`: whether the accept loop is
running and whether the listening socket is open. -/
structure StoppableHTTPServer where
  loopRunning : Bool
  socketOpen : Bool
  deriving DecidableEq

/-- `self.shutdown()` — halt the accept loop. -/
def StoppableHTTPServer.shutdown_loop (s : StoppableHTTPServer) :
    StoppableHTTPServer :=
  { s with loopRunning := false }

/-- `self.server_close()` — release the listener.  The source wraps this in
`try/except: pass`, so any error it could raise is swallowed; on the state
model it is a pure transition. -/
def StoppableHTTPServer.server_close (s : StoppableHTTPServer) :
    StoppableHTTPServer :=
  { s with socketOpen := false }

/-- Embeds `StoppableHTTPServer.stop` (source lines 122–129): halt the
accept loop, then — in a `finally`, with its own exceptions swallowed —
release the listener.  It is a total function on every server state,
including one whose start never completed. -/
def StoppableHTTPServer.stop (s : StoppableHTTPServer) :
    StoppableHTTPServer :=
  s.shutdown_loop.server_close

/-- C9: `stop` is total and idempotent: on every server state — including a
server whose start failed or never completed — it returns normally with the
loop halted and the listener released, and a second `stop` is a no-op. -/
theorem stop_idempotent_total (s : StoppableHTTPServer) :
    s.stop.stop = s.stop ∧
    s.stop = ⟨false, false⟩ :=
  ⟨rfl, rfl⟩

-- ---- Profile cleanup (source lines 185–196) --------------------------------

/-- Result of `cleanup_profile`: the filesystem after the call and the trace
of removals performed. -/
structure CleanupResult where
  fs : FS
  events : List Ev

/-- Embeds `cleanup_profile(profile_dir)` (source lines 185–196): `None` is
a no-op; otherwise, if the directory exists, remove it recursively, retrying
up to `PROFILE_CLEANUP_RETRIES` times.  Removal is modelled as succeeding,
so the retry loop always returns on its first attempt; an absent directory
returns with nothing to do. -/
def cleanup_profile (fs : FS) (profile_dir : Option String) : CleanupResult :=
  match profile_dir with
  | none => ⟨fs, []⟩
  | some d =>
      if fs.dirs d then ⟨fs.rmtree d, [.profileRemoved d]⟩ else ⟨fs, []⟩

-- ---- Browser launch (source lines 199–230) ---------------------------------

/-- Environment oracles of `launch_browser_in_new_terminal`: the result of
`find_chrome_like()`, the name `tempfile.mkdtemp` would return, whether
`subprocess.Popen` succeeds, whether the `webbrowser.open` fallback
succeeds, and the child pid on a successful spawn. -/
structure LaunchEnv where
  chromeLike : Option String
  mkdtempName : String
  spawnOk : Bool
  defaultOpenOk : Bool
  spawnedPid : Nat

/-- Result of `launch_browser_in_new_terminal`: the `(proc, profile)` pair
the function reports, plus filesystem and trace. -/
structure LaunchResult where
  proc : Option Nat
  profile : Option String
  fs : FS
  events : List Ev

/-- Embeds `launch_browser_in_new_terminal(url, use_new_console)` (source
lines 199–230).  With no companion binary found, the system default-open is
invoked (fire-and-forget) and `(None, None)` reported, also when that open
itself fails.  With a binary found, a fresh ephemeral profile directory is
created and the binary spawned against it; if spawning throws, the
just-created profile directory is removed via `cleanup_profile` and
`(None, None)` reported.  `use_new_console` only selects the Windows
`CREATE_NEW_CONSOLE` creation flag and does not affect the observable
result modelled here. -/
def launch_browser_in_new_terminal (env : LaunchEnv) (fs : FS) (url : String)
    (_use_new_console : Bool) : LaunchResult :=
  match env.chromeLike with
  | none =>
      if env.defaultOpenOk then ⟨none, none, fs, [.openedDefault url]⟩
      else ⟨none, none, fs, [.defaultOpenError]⟩
  | some exe =>
      let profile := env.mkdtempName
      let fs1 := fs.mkdir profile
      if env.spawnOk then
        ⟨some env.spawnedPid, some profile, fs1,
          [.createdProfile profile, .spawned exe env.spawnedPid]⟩
      else
        let c := cleanup_profile fs1 (some profile)
        ⟨none, none, c.fs,
          [.createdProfile profile, .spawnError exe] ++ c.events⟩

-- ---- Server start (source lines 132–161) -----------------------------------

/-- Outcome of the readiness wait inside `start_server`: a connection to the
bound port was observed before the deadline, or the deadline passed, or the
shutdown flag was set during the wait. -/
inductive StartOutcome where
  | ready
  | timeout
  | shutdown
  deriving DecidableEq

/-- Result of `start_server`: success with the bound port, a port error
raised before any listener was created, or a timeout / shutdown interrupt
raised *after* the listener was created and its accept loop started — in
those two cases the partially-started server is abandoned, not stopped. -/
inductive StartResult where
  | ok (port : Nat)
  | portError (msg : String)
  | timeoutError (port : Nat)
  | interrupted (port : Nat)
  deriving DecidableEq

/-- Embeds `start_server(serve_dir, preferred_port)` (source lines 132–161):
determine the port via `allocate_port` (raising before any listener
exists on failure), create the server and start its accept-loop thread,
then block until a probe connection succeeds or the fixed startup timeout
elapses; on timeout raise `RuntimeError`, on a shutdown request raise
`KeyboardInterrupt` — in both cases without stopping the freshly created
server. -/
def start_server (free : Nat → Bool) (outcome : StartOutcome)
    (preferred_port : Option Nat) : StartResult :=
  match allocate_port free preferred_port with
  | .error msg => .portError msg
  | .ok port =>
      match outcome with
      | .ready => .ok port
      | .timeout => .timeoutError port
      | .shutdown => .interrupted port

-- ---- Main run logic (source lines 300–373) ---------------------------------

/-- How the fallback health-polling wait ends: a failed poll (interpreted as
the tab having closed), the long poll ceiling, or the shutdown flag. -/
inductive PollOutcome where
  | healthLost
  | timedOut
  | shutdown
  deriving DecidableEq

/-- Environment of one whole `run_and_block` call: the caller's pid, the
liveness and port oracles, the readiness outcome of the server start, the
value of the shutdown flag at the check after startup, the launch
environment, an unexpected exception raised inside the wait block (if any),
and how the dedicated wait or fallback poll ends. -/
structure RunEnv where
  ownPid : Nat
  pidAlive : Int → Bool
  portFree : Nat → Bool
  startOutcome : StartOutcome
  sdAfterStart : Bool
  launch : LaunchEnv
  unexpected : Option String
  browserWaitShutdown : Bool
  pollOutcome : PollOutcome

/-- Result of the blocking wait phase of `run_and_block` (source lines
322–353): whether it raised an unexpected exception, whether the shutdown
flag is set at its end, and its trace. -/
structure WaitResult where
  raised : Bool
  sdEnd : Bool
  events : List Ev

/-- Embeds the wait block of `run_and_block` (source lines 322–353): with a
dedicated companion, poll its liveness until exit or shutdown (terminating
it on shutdown); without one, poll `/health` until unreachable, the poll
ceiling, or shutdown.  An unexpected exception aborts the wait. -/
def wait_phase (env : RunEnv) (proc : Option Nat) : WaitResult :=
  match env.unexpected with
  | some m => ⟨true, false, [.unexpectedError m]⟩
  | none =>
      match proc with
      | some _ =>
          if env.browserWaitShutdown then
            ⟨false, true, [.waitedForBrowser, .terminatedBrowser]⟩
          else ⟨false, false, [.waitedForBrowser, .browserExited]⟩
      | none =>
          match env.pollOutcome with
          | .healthLost => ⟨false, false, [.fallbackPolled, .healthLost]⟩
          | .timedOut => ⟨false, false, [.fallbackPolled, .pollTimedOut]⟩
          | .shutdown => ⟨false, true, [.fallbackPolled, .pollShutdown]⟩

/-- The URL printed as `VIEWER_URL=...` (source line 311). -/
def viewer_url (port : Nat) : String :=
  "http://" ++ HOST ++ ":" ++ toString port ++ "/timeline_viewer.html"

/-- Result of `run_and_block`: the returned boolean, the final filesystem,
and the full trace. -/
structure RunResult where
  ok : Bool
  fs : FS
  events : List Ev

/-- Embeds the body of `run_and_block` after lock acquisition — the outer
`try` block of source lines 308–368 together with its `except` handlers.

A port-allocation failure propagates out of `start_server` before any
listener exists and is caught by `except Exception` → `False`.  A readiness
timeout or a startup-time shutdown raises *after* the listener was created:
the tuple assignment never completes, the inner `try` is never entered, so
neither `server.stop()` nor `cleanup_profile` runs on those paths and the
handler returns `False`.  After a successful start the URL is printed; if
the shutdown flag is already set the function returns `False` (again
without stopping the server).  Otherwise the browser launch and the wait
phase run inside the inner `try`, whose `finally` always stops the server
and calls `cleanup_profile` on whatever profile the launch reported; an
unexpected wait-phase exception then still reaches `except Exception` →
`False`, and a normal wait ends with `return not _shutdown_requested`. -/
def run_body (env : RunEnv) (fs : FS) (preferred_port : Option Nat)
    (use_new_console : Bool) : RunResult :=
  match start_server env.portFree env.startOutcome preferred_port with
  | .portError msg => ⟨false, fs, [.startPortError msg]⟩
  | .timeoutError port =>
      ⟨false, fs, [.serverCreated port, .startTimeoutError port]⟩
  | .interrupted port =>
      ⟨false, fs, [.serverCreated port, .startInterrupted port]⟩
  | .ok port =>
      let url := viewer_url port
      if env.sdAfterStart then
        ⟨false, fs, [.serverCreated port, .printedUrl url]⟩
      else
        let l := launch_browser_in_new_terminal env.launch fs url
          use_new_console
        let w := wait_phase env l.proc
        let c := cleanup_profile l.fs l.profile
        ⟨if w.raised then false else !w.sdEnd, c.fs,
          [.serverCreated port, .printedUrl url] ++ l.events ++ w.events ++
            [.serverStopped port, .profileCleanup l.profile] ++ c.events⟩

/-- Embeds `run_and_block(serve_dir, lock_path, preferred_port,
use_new_console)` (source lines 300–373): if a lock path is given and
`acquire_lock` refuses, return `False` at once; otherwise run the body, and
— in the outer `finally`, on every path — release the lock when a lock path
was given. -/
def run_and_block (env : RunEnv) (fs0 : FS) (_serve_dir : String)
    (lock_path : Option String) (preferred_port : Option Nat)
    (use_new_console : Bool) : RunResult :=
  match lock_path with
  | none => run_body env fs0 preferred_port use_new_console
  | some lp =>
      let a := acquire_lock env.ownPid env.pidAlive fs0 lp
      if a.ok then
        let b := run_body env a.fs preferred_port use_new_console
        ⟨b.ok, release_lock b.fs lp, a.events ++ b.events ++ [.lockReleased lp]⟩
      else ⟨false, a.fs, a.events⟩

-- ---- Trace classifiers and helper lemmas -----------------------------------

/-- Lock-bookkeeping events. -/
def Ev.isLockEvent : Ev → Bool
  | .lockRemovedCorrupt => true
  | .lockCheckedLiveness _ => true
  | .lockRemovedStale _ => true
  | .lockWroteOwnPid => true
  | .lockRefused _ => true
  | .lockReleased _ => true
  | _ => false

/-- A `server.stop()` invocation. -/
def Ev.isServerStop : Ev → Bool
  | .serverStopped _ => true
  | _ => false

/-- A `webbrowser.open` default-open. -/
def Ev.isDefaultOpen : Ev → Bool
  | .openedDefault _ => true
  | _ => false

/-- A successful dedicated-companion spawn. -/
def Ev.isSpawnedEvent : Ev → Bool
  | .spawned _ _ => true
  | _ => false

/-- Every profile directory recorded as created in the trace is absent from
the final filesystem. -/
def profilesCleaned (r : RunResult) : Bool :=
  r.events.all (fun e =>
    match e with
    | Ev.createdProfile d => !(r.fs.dirs d)
    | _ => true)

theorem acquire_lock_events_all_lock (ownPid : Nat) (pidAlive : Int → Bool)
    (fs : FS) (lp : String) :
    (acquire_lock ownPid pidAlive fs lp).events.all Ev.isLockEvent = true := by
  unfold acquire_lock
  repeat' split
  all_goals simp [Ev.isLockEvent]

theorem all_of_lock_events (l : List Ev) (h : l.all Ev.isLockEvent = true)
    (f : Ev → Bool) (hf : ∀ e, e.isLockEvent = true → f e = true) :
    l.all f = true := by
  rw [List.all_eq_true] at h ⊢
  intro e he
  exact hf e (h e he)

theorem release_lock_files_self (fs : FS) (lp : String) :
    (release_lock fs lp).files lp = none := by
  unfold release_lock
  cases h : fs.files lp with
  | none => exact h
  | some v => simp [FS.remove]

theorem release_lock_dirs (fs : FS) (lp : String) :
    (release_lock fs lp).dirs = fs.dirs := by
  unfold release_lock
  cases h : fs.files lp <;> simp [FS.remove]

theorem wait_phase_no_profile (env : RunEnv) (proc : Option Nat)
    (d : String) : Ev.createdProfile d ∉ (wait_phase env proc).events := by
  unfold wait_phase
  repeat' split
  all_goals simp

theorem run_body_profile_cleaned (env : RunEnv) (fs : FS) (pp : Option Nat)
    (unc : Bool) (d : String)
    (hd : Ev.createdProfile d ∈ (run_body env fs pp unc).events) :
    (run_body env fs pp unc).fs.dirs d = false := by
  unfold run_body at hd ⊢
  cases hs : start_server env.portFree env.startOutcome pp <;>
    simp only [hs] at hd ⊢
  case portError msg => simp at hd
  case timeoutError port => simp at hd
  case interrupted port => simp at hd
  case ok port =>
    cases hsd : env.sdAfterStart <;> simp only [hsd] at hd ⊢
    · cases hc : env.launch.chromeLike with
      | none =>
          cases hdo : env.launch.defaultOpenOk <;>
            simp [launch_browser_in_new_terminal, hc, hdo,
              wait_phase_no_profile, cleanup_profile] at hd
      | some exe =>
          cases hspawn : env.launch.spawnOk <;>
            simp [launch_browser_in_new_terminal, hc, hspawn,
              cleanup_profile, FS.mkdir, wait_phase_no_profile] at hd ⊢ <;>
            subst hd <;>
            simp [FS.rmtree]
    · simp at hd

-- ---- C1, C2, C7 ------------------------------------------------------------

/-- C1: whenever the instance lock was acquired, every termination path of
`run_and_block` — explicit failure (port or server-start failure), an
unexpected exception, or a shutdown signal / KeyboardInterrupt — still
releases the lock before returning (the release appears in the trace and
the marker is gone from the final filesystem), and every ephemeral profile
directory recorded as created during the run has been removed from the
final filesystem.  In particular, with the preferred port already bound,
allocation fails and the lock marker is removed before exit (the witness
instantiates exactly that scenario). -/
theorem run_and_block_releases_lock_and_cleans_profiles
    (env : RunEnv) (fs0 : FS) (serve_dir lp : String) (pp : Option Nat)
    (unc : Bool)
    (hAcq : (acquire_lock env.ownPid env.pidAlive fs0 lp).ok = true) :
    Ev.lockReleased lp ∈
      (run_and_block env fs0 serve_dir (some lp) pp unc).events ∧
    (run_and_block env fs0 serve_dir (some lp) pp unc).fs.files lp = none ∧
    profilesCleaned (run_and_block env fs0 serve_dir (some lp) pp unc) =
      true := by
  have hA := acquire_lock_events_all_lock env.ownPid env.pidAlive fs0 lp
  simp only [run_and_block, hAcq, if_true]
  refine ⟨by simp, release_lock_files_self _ _, ?_⟩
  unfold profilesCleaned
  rw [List.all_eq_true]
  intro e he
  simp only [List.mem_append, List.mem_cons, List.not_mem_nil, or_false] at he
  rcases he with (heA | heB) | rfl
  · have hl := List.all_eq_true.mp hA e heA
    cases e <;> simp [Ev.isLockEvent] at hl ⊢
  · cases e <;> try rfl
    case createdProfile d =>
      have hc := run_body_profile_cleaned env
        (acquire_lock env.ownPid env.pidAlive fs0 lp).fs pp unc d heB
      simp [release_lock_dirs, hc]
  · rfl

/-- The run environment of Scenario D: every bind probe fails, so a
preferred port is reported unavailable. -/
def envPortBound : RunEnv :=
  ⟨4242, alwaysDead, noneFree, .ready, false,
    ⟨some "/usr/bin/google-chrome", "viewer-profile-abc123", true, true, 777⟩,
    none, false, .healthLost⟩

/-- C1 witness (Scenario D): lock acquired on an empty filesystem, then the
preferred port 8080 is already bound, allocation fails, and still the trace
releases the lock, the marker is gone, and no created profile survives. -/
theorem run_and_block_releases_lock_and_cleans_profiles_witness :
    (acquire_lock envPortBound.ownPid envPortBound.pidAlive emptyFS
      "viewer.lock").ok = true ∧
    (Ev.lockReleased "viewer.lock" ∈
      (run_and_block envPortBound emptyFS "viewer" (some "viewer.lock")
        (some 8080) true).events ∧
    (run_and_block envPortBound emptyFS "viewer" (some "viewer.lock")
      (some 8080) true).fs.files "viewer.lock" = none ∧
    profilesCleaned (run_and_block envPortBound emptyFS "viewer"
      (some "viewer.lock") (some 8080) true) = true) :=
  ⟨by decide,
    run_and_block_releases_lock_and_cleans_profiles envPortBound emptyFS
      "viewer" "viewer.lock" (some 8080) true (by decide)⟩

/-- C2 (amended): when server startup times out, the run fails fatally and
the lock is still released before `run_and_block` returns — but the
partially-started server is *not* stopped on this path: `start_server`
raises before the caller's tuple assignment, the inner `try/finally` that
would call `server.stop()` is never entered, and no stop appears anywhere
in the trace. -/
theorem start_timeout_releases_lock_but_never_stops_server
    (env : RunEnv) (fs0 : FS) (serve_dir lp : String) (pp : Option Nat)
    (unc : Bool) (port : Nat)
    (hAcq : (acquire_lock env.ownPid env.pidAlive fs0 lp).ok = true)
    (hto : start_server env.portFree env.startOutcome pp =
      StartResult.timeoutError port) :
    (run_and_block env fs0 serve_dir (some lp) pp unc).ok = false ∧
    Ev.lockReleased lp ∈
      (run_and_block env fs0 serve_dir (some lp) pp unc).events ∧
    (run_and_block env fs0 serve_dir (some lp) pp unc).fs.files lp = none ∧
    (run_and_block env fs0 serve_dir (some lp) pp unc).events.all
      (fun e => !e.isServerStop) = true := by
  have hA := acquire_lock_events_all_lock env.ownPid env.pidAlive fs0 lp
  simp only [run_and_block, hAcq, if_true, run_body, hto]
  refine ⟨by simp, by simp, release_lock_files_self _ _, ?_⟩
  rw [List.all_eq_true]
  intro e he
  simp only [List.mem_append, List.mem_cons, List.not_mem_nil, or_false] at he
  rcases he with (heA | rfl | rfl) | rfl
  · have hl := List.all_eq_true.mp hA e heA
    cases e <;> simp [Ev.isLockEvent, Ev.isServerStop] at hl ⊢
  · simp [Ev.isServerStop]
  · simp [Ev.isServerStop]
  · simp [Ev.isServerStop]

/-- A run environment in which the readiness wait inside `start_server`
times out after the listener was created. -/
def envStartTimeout : RunEnv :=
  ⟨4242, alwaysDead, allFree, .timeout, false,
    ⟨some "/usr/bin/google-chrome", "viewer-profile-abc123", true, true, 777⟩,
    none, false, .healthLost⟩

/-- C2 counterexample: on the concrete startup-timeout run the full trace is
lock write, server creation, timeout error, lock release — the claim's
required stop of the partially-started server never occurs, even though the
run does fail fatally and does release the lock. -/
theorem start_timeout_no_server_stop_cex :
    (run_and_block envStartTimeout emptyFS "viewer" (some "viewer.lock")
      (some 8080) true).events =
      [Ev.lockWroteOwnPid, Ev.serverCreated 8080, Ev.startTimeoutError 8080,
       Ev.lockReleased "viewer.lock"] ∧
    Ev.serverStopped 8080 ∉
      (run_and_block envStartTimeout emptyFS "viewer" (some "viewer.lock")
        (some 8080) true).events ∧
    (run_and_block envStartTimeout emptyFS "viewer" (some "viewer.lock")
      (some 8080) true).ok = false := by
  refine ⟨by decide, by decide, by decide⟩

/-- C2 witness: the amended statement instantiated on the concrete
startup-timeout run. -/
theorem start_timeout_releases_lock_but_never_stops_server_witness :
    ((acquire_lock envStartTimeout.ownPid envStartTimeout.pidAlive emptyFS
        "viewer.lock").ok = true ∧
      start_server envStartTimeout.portFree envStartTimeout.startOutcome
        (some 8080) = StartResult.timeoutError 8080) ∧
    ((run_and_block envStartTimeout emptyFS "viewer" (some "viewer.lock")
        (some 8080) true).ok = false ∧
      Ev.lockReleased "viewer.lock" ∈
        (run_and_block envStartTimeout emptyFS "viewer" (some "viewer.lock")
          (some 8080) true).events ∧
      (run_and_block envStartTimeout emptyFS "viewer" (some "viewer.lock")
        (some 8080) true).fs.files "viewer.lock" = none ∧
      (run_and_block envStartTimeout emptyFS "viewer" (some "viewer.lock")
        (some 8080) true).events.all (fun e => !e.isServerStop) = true) :=
  ⟨⟨by decide, by decide⟩,
    start_timeout_releases_lock_but_never_stops_server envStartTimeout
      emptyFS "viewer" "viewer.lock" (some 8080) true 8080 (by decide)
      (by decide)⟩

/-- C7 (amended): when a companion binary is found but spawning it throws,
the launch removes the profile directory it just created and reports
`(None, None)`, and the run then degrades to the fallback *health polling*
— no default-open occurs on this path (default-open happens only when no
companion binary is found at all) — and does not abort: the wait runs, the
server is stopped normally, and absent a shutdown request the run returns
success. -/
theorem spawn_failure_degrades_to_polling
    (env : RunEnv) (fs : FS) (pp : Option Nat) (unc : Bool) (exe : String)
    (port : Nat)
    (hexe : env.launch.chromeLike = some exe)
    (hspawn : env.launch.spawnOk = false)
    (hstart : start_server env.portFree env.startOutcome pp =
      StartResult.ok port)
    (hsd : env.sdAfterStart = false)
    (hun : env.unexpected = none) :
    (launch_browser_in_new_terminal env.launch fs (viewer_url port)
      unc).proc = none ∧
    (launch_browser_in_new_terminal env.launch fs (viewer_url port)
      unc).profile = none ∧
    Ev.createdProfile env.launch.mkdtempName ∈
      (run_body env fs pp unc).events ∧
    Ev.spawnError exe ∈ (run_body env fs pp unc).events ∧
    Ev.profileRemoved env.launch.mkdtempName ∈
      (run_body env fs pp unc).events ∧
    (run_body env fs pp unc).fs.dirs env.launch.mkdtempName = false ∧
    Ev.fallbackPolled ∈ (run_body env fs pp unc).events ∧
    Ev.serverStopped port ∈ (run_body env fs pp unc).events ∧
    (run_body env fs pp unc).events.all (fun e => !e.isDefaultOpen) = true ∧
    (run_body env fs pp unc).events.all (fun e => !e.isSpawnedEvent) =
      true ∧
    (env.pollOutcome ≠ PollOutcome.shutdown →
      (run_body env fs pp unc).ok = true) := by
  simp only [run_body, hstart, hsd, launch_browser_in_new_terminal, hexe,
    hspawn, wait_phase, hun, cleanup_profile, FS.mkdir]
  cases hp : env.pollOutcome <;>
    simp [hp, Ev.isDefaultOpen, Ev.isSpawnedEvent, FS.rmtree]

/-- A run environment in which a companion binary is found but spawning it
throws. -/
def envSpawnThrows : RunEnv :=
  ⟨4242, alwaysDead, allFree, .ready, false,
    ⟨some "/usr/bin/google-chrome", "viewer-profile-abc123", false, true,
      777⟩,
    none, false, .healthLost⟩

/-- C7 counterexample: on the concrete spawn-failure run the trace shows the
profile created and removed, the spawn error, the fallback health polling
and a successful finish — but no default-open of the url anywhere, contrary
to the claim's "degrades to the fallback of default-open plus health
polling". -/
theorem spawn_failure_no_default_open_cex :
    (run_and_block envSpawnThrows emptyFS "viewer" (some "viewer.lock")
      (some 8080) true).events =
      [Ev.lockWroteOwnPid, Ev.serverCreated 8080,
       Ev.printedUrl (viewer_url 8080),
       Ev.createdProfile "viewer-profile-abc123",
       Ev.spawnError "/usr/bin/google-chrome",
       Ev.profileRemoved "viewer-profile-abc123",
       Ev.fallbackPolled, Ev.healthLost,
       Ev.serverStopped 8080, Ev.profileCleanup none,
       Ev.lockReleased "viewer.lock"] ∧
    Ev.openedDefault (viewer_url 8080) ∉
      (run_and_block envSpawnThrows emptyFS "viewer" (some "viewer.lock")
        (some 8080) true).events ∧
    (run_and_block envSpawnThrows emptyFS "viewer" (some "viewer.lock")
      (some 8080) true).ok = true := by
  refine ⟨by decide, by decide, by decide⟩

/-- C7 witness: the amended statement instantiated on the concrete
spawn-failure environment. -/
theorem spawn_failure_degrades_to_polling_witness :
    (envSpawnThrows.launch.chromeLike = some "/usr/bin/google-chrome" ∧
      envSpawnThrows.launch.spawnOk = false ∧
      start_server envSpawnThrows.portFree envSpawnThrows.startOutcome
        (some 8080) = StartResult.ok 8080 ∧
      envSpawnThrows.sdAfterStart = false ∧
      envSpawnThrows.unexpected = none) ∧
    ((launch_browser_in_new_terminal envSpawnThrows.launch emptyFS
        (viewer_url 8080) true).proc = none ∧
      (launch_browser_in_new_terminal envSpawnThrows.launch emptyFS
        (viewer_url 8080) true).profile = none ∧
      Ev.createdProfile envSpawnThrows.launch.mkdtempName ∈
        (run_body envSpawnThrows emptyFS (some 8080) true).events ∧
      Ev.spawnError "/usr/bin/google-chrome" ∈
        (run_body envSpawnThrows emptyFS (some 8080) true).events ∧
      Ev.profileRemoved envSpawnThrows.launch.mkdtempName ∈
        (run_body envSpawnThrows emptyFS (some 8080) true).events ∧
      (run_body envSpawnThrows emptyFS (some 8080) true).fs.dirs
        envSpawnThrows.launch.mkdtempName = false ∧
      Ev.fallbackPolled ∈
        (run_body envSpawnThrows emptyFS (some 8080) true).events ∧
      Ev.serverStopped 8080 ∈
        (run_body envSpawnThrows emptyFS (some 8080) true).events ∧
      (run_body envSpawnThrows emptyFS (some 8080) true).events.all
        (fun e => !e.isDefaultOpen) = true ∧
      (run_body envSpawnThrows emptyFS (some 8080) true).events.all
        (fun e => !e.isSpawnedEvent) = true ∧
      (envSpawnThrows.pollOutcome ≠ PollOutcome.shutdown →
        (run_body envSpawnThrows emptyFS (some 8080) true).ok = true)) :=
  ⟨⟨by decide, by decide, by decide, by decide, by decide⟩,
    spawn_failure_degrades_to_polling envSpawnThrows emptyFS (some 8080)
      true "/usr/bin/google-chrome" 8080 (by decide) (by decide) (by decide)
      (by decide) (by decide)⟩

end Viewer
